import Mathlib

set_option linter.unusedVariables false

/-!
Shallow embedding of the document e-signature service (`src/app.py`).
Signature and quiz records live in a flat store (two tables, insertion
ordered); the operations below translate the endpoint handlers.
Timestamps are carried as ISO strings and compared with the string order,
matching the storage engine's comparison on string fields.
-/

/-- Status enumeration `DocumentStatus` from `app.py`. -/
inductive DocumentStatus where
  | sent
  | acknowledged
  | quiz_pending
  | quiz_failed
  | completed
deriving DecidableEq, Repr

/-- A quiz question as stored (`QuizQuestion` model). -/
structure QuizQuestion where
  id : String
  question : String
  options : List String
  correct_answer : String
deriving DecidableEq, Repr

/-- A raw question item as parsed from the generator response (before ids
are attached); the fields the code reads from each JSON object. -/
structure RawQuestion where
  question : String
  options : List String
  correct_answer : String
deriving DecidableEq, Repr

/-- A signature request record as inserted by `send_document` and mutated
by the later handlers.  Fields absent until acknowledge are `Option`s
defaulting to `none`. -/
structure SignatureRecord where
  tracking_id : String
  document_id : String
  document_title : String
  sender_email : String
  sender_name : String
  receiver_email : String
  purpose : String
  status : DocumentStatus
  created_at : String
  updated_at : String
  acknowledged : Bool
  quiz_id : Option String
  quiz_passed : Bool
  completed_at : Option String
  acknowledgment_date : Option String := none
  acknowledgment_location : Option String := none
  signer_name : Option String := none
deriving DecidableEq, Repr

/-- A quiz record as inserted by `submit_signature` and mutated by
`submit_quiz`. -/
structure QuizRecord where
  quiz_id : String
  tracking_id : String
  questions : List QuizQuestion
  created_at : String
  attempts : Nat
  passed : Bool
  last_attempt : Option String := none
  last_score : Option Nat := none
deriving DecidableEq, Repr

/-- The two tables of the store, in insertion order. -/
structure Store where
  signatures : List SignatureRecord
  quizzes : List QuizRecord
deriving DecidableEq, Repr

/-- A resolved document: `load_document` returns title and content. -/
structure Document where
  title : String
  content : String
deriving DecidableEq, Repr

/-- An email event dispatched through the webhook (event type and
recipient, the payload key `to`, are the parts the claims mention). -/
structure EmailEvent where
  event_type : String
  to_addr : String
deriving DecidableEq, Repr

/-- Payload of `POST /api/submit-signature` (`SignatureSubmission`). -/
structure SignatureSubmission where
  acknowledged : Bool
  date : String
  location : String
  name : String
deriving DecidableEq, Repr

/-- Payload of `POST /api/send-document` (`SendDocumentRequest`). -/
structure SendDocumentRequest where
  sender_email : String
  sender_name : String
  purpose : String
  receiver_email : String
  document_id : String
deriving DecidableEq, Repr

/-- The static fallback question set `get_fallback_questions` from
`app.py` (document content is ignored by the source too). -/
def get_fallback_questions (document_content : String) : List QuizQuestion :=
  [{ id := "q1",
     question := "What is the main purpose of this document?",
     options := ["To provide guidelines", "To establish rules",
                 "To inform about policies", "All of the above"],
     correct_answer := "All of the above" },
   { id := "q2",
     question := "Who is required to follow these guidelines?",
     options := ["Only new employees", "Only management",
                 "All employees", "External contractors only"],
     correct_answer := "All employees" },
   { id := "q3",
     question := "When do these policies take effect?",
     options := ["Immediately upon acknowledgment", "After 30 days",
                 "At the next review cycle", "Only for new projects"],
     correct_answer := "Immediately upon acknowledgment" }]

/-- `generate_quiz_questions` from `app.py`.  The external model call is
abstracted by `gen`: `none` models any exception (API failure, JSON parse
error, missing keys), `some qs` models a successfully parsed question
list.  The code takes the first `num_questions` parsed items, attaches
ids `q1`, `q2`, ..., and falls back to the static set when fewer than
`num_questions` remain; it performs no validation of option count or of
membership of the correct answer in the options. -/
def generate_quiz_questions (document_content : String)
    (gen : Option (List RawQuestion)) (num_questions : Nat := 3) :
    List QuizQuestion :=
  match gen with
  | none => (get_fallback_questions document_content).take num_questions
  | some questions_list =>
    let questions := (questions_list.take num_questions).enum.map
      (fun p =>
        { id := "q" ++ toString (p.1 + 1),
          question := p.2.question,
          options := p.2.options,
          correct_answer := p.2.correct_answer })
    if questions.length < num_questions then
      (get_fallback_questions document_content).take num_questions
    else
      questions

/-- Outcome of `POST /api/send-document`. -/
inductive CreateOutcome where
  | docNotFound
  | ok (tracking_id : String) (st : Store) (events : List EmailEvent)
deriving Repr

/-- `send_document` from `app.py`: validates the document, inserts a
SENT signature record, dispatches the request email.  The fresh
`tracking_id` and the current time (`uuid.uuid4()` /
`datetime.now(...).isoformat()`) are passed in explicitly; `docs` models
`load_document` (`none` is the 404 path). -/
def send_document (docs : String → Option Document) (st : Store)
    (request : SendDocumentRequest) (tracking_id now : String) :
    CreateOutcome :=
  match docs request.document_id with
  | none => .docNotFound
  | some document =>
    let signature_record : SignatureRecord :=
      { tracking_id := tracking_id,
        document_id := request.document_id,
        document_title := document.title,
        sender_email := request.sender_email,
        sender_name := request.sender_name,
        receiver_email := request.receiver_email,
        purpose := request.purpose,
        status := .sent,
        created_at := now,
        updated_at := now,
        acknowledged := false,
        quiz_id := none,
        quiz_passed := false,
        completed_at := none }
    .ok tracking_id ⟨st.signatures ++ [signature_record], st.quizzes⟩
      [⟨"signature_request", request.receiver_email⟩]

/-- The `signatures_table.update({...}, tracking_id == ...)` call inside
`submit_signature`: every record matching the tracking id receives the
acknowledgment fields, status QUIZ_PENDING and the new quiz id. -/
def ackSignatureUpdate (tracking_id : String)
    (submission : SignatureSubmission) (quiz_id now : String)
    (l : List SignatureRecord) : List SignatureRecord :=
  l.map (fun s =>
    if s.tracking_id == tracking_id then
      { s with acknowledged := submission.acknowledged,
               acknowledgment_date := some submission.date,
               acknowledgment_location := some submission.location,
               signer_name := some submission.name,
               status := .quiz_pending,
               quiz_id := some quiz_id,
               updated_at := now }
    else s)

/-- Outcome of `POST /api/submit-signature`. -/
inductive AckOutcome where
  | sigNotFound
  | docNotFound
  | ok (quiz_id : String) (st : Store) (events : List EmailEvent)
deriving Repr

/-- `submit_signature` from `app.py`: looks up the signature (404 when
absent), resolves the document (404 when absent), generates the quiz
questions, inserts a fresh quiz record with `attempts = 0`, updates the
signature record, and dispatches the quiz-link email.  No guard on the
current status and no check of `submission.acknowledged`. -/
def submit_signature (docs : String → Option Document)
    (gen : Option (List RawQuestion)) (st : Store) (tracking_id : String)
    (submission : SignatureSubmission) (quiz_id now : String) :
    AckOutcome :=
  match st.signatures.find? (fun s => s.tracking_id == tracking_id) with
  | none => .sigNotFound
  | some signature =>
    match docs signature.document_id with
    | none => .docNotFound
    | some document =>
      let questions := generate_quiz_questions document.content gen
      let quiz_record : QuizRecord :=
        { quiz_id := quiz_id,
          tracking_id := tracking_id,
          questions := questions,
          created_at := now,
          attempts := 0,
          passed := false }
      .ok quiz_id
        ⟨ackSignatureUpdate tracking_id submission quiz_id now
            st.signatures,
         st.quizzes ++ [quiz_record]⟩
        [⟨"quiz_link", signature.receiver_email⟩]

/-- The grading loop of `submit_quiz`: one point per question whose
submitted answer (`submission.answers.get(question["id"])`, `none` when
the id is absent) equals the recorded correct answer exactly. -/
def correct_count_of (questions : List QuizQuestion)
    (answers : List (String × String)) : Nat :=
  questions.countP (fun q => answers.lookup q.id == some q.correct_answer)

/-- The `quizzes_table.update({...}, quiz_id == ...)` call inside
`submit_quiz`: attempts incremented from the fetched record, latest
outcome and score recorded. -/
def quizResultUpdate (quiz : QuizRecord) (passed : Bool)
    (correct_count : Nat) (now quiz_id : String) (l : List QuizRecord) :
    List QuizRecord :=
  l.map (fun q =>
    if q.quiz_id == quiz_id then
      { q with attempts := quiz.attempts + 1,
               passed := passed,
               last_attempt := some now,
               last_score := some correct_count }
    else q)

/-- The passed-branch `signatures_table.update` of `submit_quiz`:
matching records become COMPLETED with `completed_at` set. -/
def completeSignatureUpdate (quiz_id now : String)
    (l : List SignatureRecord) : List SignatureRecord :=
  l.map (fun s =>
    if s.quiz_id == some quiz_id then
      { s with status := .completed,
               quiz_passed := true,
               completed_at := some now,
               updated_at := now }
    else s)

/-- The failed-branch `signatures_table.update` of `submit_quiz`: only
the status field is rewritten (notably `completed_at` and `updated_at`
are left as they were). -/
def failSignatureUpdate (quiz_id : String) (l : List SignatureRecord) :
    List SignatureRecord :=
  l.map (fun s =>
    if s.quiz_id == some quiz_id then { s with status := .quiz_failed }
    else s)

/-- Outcome of `POST /api/submit-quiz`.  `crashed` is the unhandled
`NoneType` subscription error raised when no signature references the
quiz: the quiz update has already been persisted, the handler dies while
building the notification arguments. -/
inductive SubmitOutcome where
  | quizNotFound
  | crashed (st : Store)
  | ok (passed : Bool) (score : String) (attempts : Nat) (st : Store)
      (events : List EmailEvent)
deriving Repr

/-- `submit_quiz` from `app.py`: fetches the quiz (404 when absent),
grades, updates the quiz record unconditionally, then branches on
`passed`.  Passed: reads the owning signature, applies the COMPLETED
update, then builds the two completion emails from the signature read
before the update — dying on `None` when the quiz is orphaned.  Failed:
applies the QUIZ_FAILED update, re-reads the signature afterwards, then
builds the failure email — likewise dying on `None`. -/
def submit_quiz (st : Store) (quiz_id : String)
    (answers : List (String × String)) (now : String) : SubmitOutcome :=
  match st.quizzes.find? (fun q => q.quiz_id == quiz_id) with
  | none => .quizNotFound
  | some quiz =>
    let correct_count := correct_count_of quiz.questions answers
    let total_questions := quiz.questions.length
    let passed : Bool := correct_count == total_questions
    let quizzes' :=
      quizResultUpdate quiz passed correct_count now quiz_id st.quizzes
    if passed then
      let signatures' := completeSignatureUpdate quiz_id now st.signatures
      match st.signatures.find? (fun s => s.quiz_id == some quiz_id) with
      | none => .crashed ⟨signatures', quizzes'⟩
      | some signature =>
        .ok true (toString correct_count ++ "/" ++ toString total_questions)
          (quiz.attempts + 1) ⟨signatures', quizzes'⟩
          [⟨"signature_completed", signature.receiver_email⟩,
           ⟨"signature_completed_notification", signature.sender_email⟩]
    else
      let signatures' := failSignatureUpdate quiz_id st.signatures
      match signatures'.find? (fun s => s.quiz_id == some quiz_id) with
      | none => .crashed ⟨signatures', quizzes'⟩
      | some signature =>
        .ok false (toString correct_count ++ "/" ++ toString total_questions)
          (quiz.attempts + 1) ⟨signatures', quizzes'⟩
          [⟨"quiz_failed", signature.receiver_email⟩]

/-- The store reached by a `submit_quiz` call, when the quiz was found
(both the clean completion and the orphan crash leave a store). -/
def SubmitOutcome.store : SubmitOutcome → Option Store
  | .quizNotFound => none
  | .crashed st => some st
  | .ok _ _ _ st _ => some st

/-- Whether the handler ran to completion and returned a response. -/
def SubmitOutcome.completedOk : SubmitOutcome → Bool
  | .ok _ _ _ _ _ => true
  | _ => false

/-- The strict order the storage engine and the record sort use on
string fields (code-point lexicographic, what Python's `<` does on
`str`), stated on the character list so that it evaluates. -/
def strLtB (a b : String) : Bool := decide (a.toList < b.toList)

/-- Dashboard payload of `GET /api/dashboard`. -/
structure DashboardData where
  signatures : List SignatureRecord
  total : Nat
  limit : Nat
  offset : Nat
deriving Repr

/-- `get_dashboard` from `app.py`: reads all signature records, stable
sorts by `created_at` newest first (`sort(key=..., reverse=True)`),
slices `[offset : offset + limit]`, and reports the full count.  The
store is returned untouched (pure read). -/
def get_dashboard (st : Store) (limit offset : Nat) :
    DashboardData × Store :=
  let all_signatures :=
    st.signatures.mergeSort (fun a b => !strLtB a.created_at b.created_at)
  let paginated := (all_signatures.drop offset).take limit
  (⟨paginated, all_signatures.length, limit, offset⟩, st)

/-- Counts returned by the age purge endpoint. -/
structure PurgeResult where
  signatures_cleared : Nat
  quizzes_cleared : Nat
deriving DecidableEq, Repr

/-- `clear_old_data_endpoint` from `app.py`: counts then removes every
record of either table whose `created_at` is strictly below the cutoff
string (the storage engine compares the ISO strings). -/
def clear_old_data_endpoint (st : Store) (cutoff_str : String) :
    PurgeResult × Store :=
  let old_signatures :=
    st.signatures.filter (fun r => strLtB r.created_at cutoff_str)
  let old_quizzes :=
    st.quizzes.filter (fun r => strLtB r.created_at cutoff_str)
  let signatures_count := old_signatures.length
  let quizzes_count := old_quizzes.length
  let signatures' :=
    st.signatures.filter (fun r => !strLtB r.created_at cutoff_str)
  let quizzes' :=
    st.quizzes.filter (fun r => !strLtB r.created_at cutoff_str)
  (⟨signatures_count, quizzes_count⟩, ⟨signatures', quizzes'⟩)

/-- What the webhook endpoint does on one delivery attempt: an HTTP
status code, a request timeout, or any other transport exception. -/
inductive WebhookResponse where
  | status (code : Nat)
  | timeout
  | netError
deriving DecidableEq, Repr

/-- Observable result of `send_webhook`: how many POSTs were made,
whether it reported success, and the backoff sleeps performed (in
seconds, as exact rationals). -/
structure WebhookRun where
  attempts : Nat
  success : Bool
  sleeps : List ℚ
deriving Repr

/-- The retry loop body of `send_webhook` (`for attempt in
range(max_retries)`), translated with explicit fuel (`fuel` many loop
iterations remain; `attempt` is the current index, so `fuel + attempt =
max_retries` when entered from `send_webhook`).  Success codes 200, 201,
202 return immediately; a 5xx sleeps `2 ** attempt + jitter` and
continues (even when the loop is about to end); a timeout does the same
but only when `attempt < max_retries - 1`, else returns failure; any
other status or exception returns failure at once; an exhausted loop
returns failure. -/
def webhookLoop (resp : Nat → WebhookResponse) (jitter : Nat → ℚ)
    (max_retries : Nat) : Nat → Nat → WebhookRun
  | 0, attempt => ⟨attempt, false, []⟩
  | fuel + 1, attempt =>
    match resp attempt with
    | .status code =>
      if code = 200 ∨ code = 201 ∨ code = 202 then
        ⟨attempt + 1, true, []⟩
      else if 500 ≤ code then
        let wait_time : ℚ := 2 ^ attempt + jitter attempt
        let r := webhookLoop resp jitter max_retries fuel (attempt + 1)
        ⟨r.attempts, r.success, wait_time :: r.sleeps⟩
      else
        ⟨attempt + 1, false, []⟩
    | .timeout =>
      if attempt < max_retries - 1 then
        let wait_time : ℚ := 2 ^ attempt + jitter attempt
        let r := webhookLoop resp jitter max_retries fuel (attempt + 1)
        ⟨r.attempts, r.success, wait_time :: r.sleeps⟩
      else
        ⟨attempt + 1, false, []⟩
    | .netError => ⟨attempt + 1, false, []⟩

/-- `send_webhook` from `app.py`.  The endpoint's behaviour on the n-th
attempt is `resp n`; `jitter n` is the value `random.uniform(0, 1)`
drawn for that attempt.  Defaults to 3 attempts as in the source. -/
def send_webhook (resp : Nat → WebhookResponse) (jitter : Nat → ℚ)
    (max_retries : Nat := 3) : WebhookRun :=
  webhookLoop resp jitter max_retries max_retries 0

/-- One inbound operation against the store, with its per-call
environment (document catalog, generator response, fresh identifiers,
clock reading) chosen adversarially. -/
inductive Op where
  | create (docs : String → Option Document)
      (request : SendDocumentRequest) (tracking_id now : String)
  | acknowledge (docs : String → Option Document)
      (gen : Option (List RawQuestion)) (tracking_id : String)
      (submission : SignatureSubmission) (quiz_id now : String)
  | submitQuiz (quiz_id : String) (answers : List (String × String))
      (now : String)

/-- The store left behind by one operation (a rejected request, and the
crash before any further write, leave the already-persisted state). -/
def runOp (st : Store) : Op → Store
  | .create docs request tracking_id now =>
    match send_document docs st request tracking_id now with
    | .ok _ st' _ => st'
    | _ => st
  | .acknowledge docs gen tracking_id submission quiz_id now =>
    match submit_signature docs gen st tracking_id submission quiz_id now with
    | .ok _ st' _ => st'
    | _ => st
  | .submitQuiz quiz_id answers now =>
    match submit_quiz st quiz_id answers now with
    | .ok _ _ _ st' _ => st'
    | .crashed st' => st'
    | .quizNotFound => st

/-- A sequence of operations, run left to right. -/
def runOps (st : Store) (ops : List Op) : Store :=
  ops.foldl runOp st

/-- The store a fresh deployment starts from. -/
def emptyStore : Store := ⟨[], []⟩

/-- The invariant exactly as the specification states it: `quiz_id` is
non-null iff the status is QUIZ_PENDING, QUIZ_FAILED or COMPLETED, and
`completed_at` is non-null iff the status is COMPLETED. -/
def SigInvFull (s : SignatureRecord) : Prop :=
  ((s.quiz_id ≠ none) ↔
    (s.status = .quiz_pending ∨ s.status = .quiz_failed ∨
     s.status = .completed)) ∧
  ((s.completed_at ≠ none) ↔ s.status = .completed)

instance (s : SignatureRecord) : Decidable (SigInvFull s) := by
  unfold SigInvFull
  infer_instance

/-- The spec invariant over a whole store. -/
def StoreInvFull (st : Store) : Prop :=
  ∀ s ∈ st.signatures, SigInvFull s

instance (st : Store) : Decidable (StoreInvFull st) :=
  List.decidableBAll _ _

/-- The invariant the code actually maintains: the `quiz_id` biconditional
survives, but for `completed_at` only the forward direction does (a
failed resubmission or a re-acknowledge moves the status off COMPLETED
without clearing `completed_at`). -/
def SigInv (s : SignatureRecord) : Prop :=
  ((s.quiz_id ≠ none) ↔
    (s.status = .quiz_pending ∨ s.status = .quiz_failed ∨
     s.status = .completed)) ∧
  (s.status = .completed → s.completed_at ≠ none)

/-- A question of the shape the spec promises: exactly 4 options and the
correct answer among them. -/
def wellFormedQuestion (q : QuizQuestion) : Bool :=
  q.options.length == 4 && q.options.contains q.correct_answer

/-- The `passed` field of a returned quiz response, when one was
returned. -/
def SubmitOutcome.passedOf : SubmitOutcome → Option Bool
  | .ok passed _ _ _ _ => some passed
  | _ => none

/-- The `score` field of a returned quiz response, when one was
returned. -/
def SubmitOutcome.scoreOf : SubmitOutcome → Option String
  | .ok _ score _ _ _ => some score
  | _ => none

/-- The `attempts` field of a returned quiz response, when one was
returned. -/
def SubmitOutcome.attemptsOf : SubmitOutcome → Option Nat
  | .ok _ _ attempts _ _ => some attempts
  | _ => none

/-- The events a `submit_quiz` call dispatched (none on a crash). -/
def SubmitOutcome.eventsOf : SubmitOutcome → List EmailEvent
  | .ok _ _ _ _ events => events
  | _ => []

/-- The store reached by a `submit_signature` call, when it succeeded. -/
def AckOutcome.store : AckOutcome → Option Store
  | .ok _ st _ => some st
  | _ => none

/-- The quizzes table reached by a `submit_signature` call (empty when
the call was rejected). -/
def AckOutcome.quizzesOf : AckOutcome → List QuizRecord
  | .ok _ st _ => st.quizzes
  | _ => []

theorem webhookLoop_attempts_le (resp : Nat → WebhookResponse)
    (jitter : Nat → ℚ) (m : Nat) :
    ∀ fuel attempt,
      (webhookLoop resp jitter m fuel attempt).attempts ≤ attempt + fuel := by
  intro fuel
  induction fuel with
  | zero => intro attempt; simp [webhookLoop]
  | succ f ih =>
    intro attempt
    simp only [webhookLoop]
    cases hr : resp attempt with
    | status code =>
      by_cases h1 : code = 200 ∨ code = 201 ∨ code = 202
      · simp only [if_pos h1]; omega
      · by_cases h2 : 500 ≤ code
        · simp only [if_neg h1, if_pos h2]
          have := ih (attempt + 1)
          omega
        · simp only [if_neg h1, if_neg h2]; omega
    | timeout =>
      by_cases h : attempt < m - 1
      · simp only [if_pos h]
        have := ih (attempt + 1)
        omega
      · simp only [if_neg h]; omega
    | netError => dsimp only; omega

theorem webhookLoop_retry_only (resp : Nat → WebhookResponse)
    (jitter : Nat → ℚ) (m : Nat) :
    ∀ fuel attempt k, attempt ≤ k →
      k + 1 < (webhookLoop resp jitter m fuel attempt).attempts →
      (∃ c, resp k = .status c ∧ 500 ≤ c) ∨ resp k = .timeout := by
  intro fuel
  induction fuel with
  | zero =>
    intro attempt k hk hlt
    simp [webhookLoop] at hlt
    omega
  | succ f ih =>
    intro attempt k hk hlt
    simp only [webhookLoop] at hlt
    cases hr : resp attempt with
    | status code =>
      rw [hr] at hlt
      by_cases h1 : code = 200 ∨ code = 201 ∨ code = 202
      · simp only [if_pos h1] at hlt; omega
      · by_cases h2 : 500 ≤ code
        · simp only [if_neg h1, if_pos h2] at hlt
          rcases Nat.lt_or_ge k (attempt + 1) with hka | hka
          · left
            have : k = attempt := by omega
            exact ⟨code, this ▸ hr, h2⟩
          · exact ih (attempt + 1) k hka hlt
        · simp only [if_neg h1, if_neg h2] at hlt; omega
    | timeout =>
      rw [hr] at hlt
      by_cases h : attempt < m - 1
      · simp only [if_pos h] at hlt
        rcases Nat.lt_or_ge k (attempt + 1) with hka | hka
        · right
          have : k = attempt := by omega
          exact this ▸ hr
        · exact ih (attempt + 1) k hka hlt
      · simp only [if_neg h] at hlt; omega
    | netError => rw [hr] at hlt; simp at hlt; omega

theorem webhookLoop_sleeps (resp : Nat → WebhookResponse)
    (jitter : Nat → ℚ) (m : Nat) :
    ∀ fuel attempt s, s ∈ (webhookLoop resp jitter m fuel attempt).sleeps →
      ∃ i, s = 2 ^ i + jitter i := by
  intro fuel
  induction fuel with
  | zero => intro attempt s hs; simp [webhookLoop] at hs
  | succ f ih =>
    intro attempt s hs
    simp only [webhookLoop] at hs
    cases hr : resp attempt with
    | status code =>
      rw [hr] at hs
      by_cases h1 : code = 200 ∨ code = 201 ∨ code = 202
      · simp [if_pos h1] at hs
      · by_cases h2 : 500 ≤ code
        · simp only [if_neg h1, if_pos h2, List.mem_cons] at hs
          rcases hs with hs | hs
          · exact ⟨attempt, hs⟩
          · exact ih (attempt + 1) s hs
        · simp [if_neg h1, if_neg h2] at hs
    | timeout =>
      rw [hr] at hs
      by_cases h : attempt < m - 1
      · simp only [if_pos h, List.mem_cons] at hs
        rcases hs with hs | hs
        · exact ⟨attempt, hs⟩
        · exact ih (attempt + 1) s hs
      · simp [if_neg h] at hs
    | netError => rw [hr] at hs; simp at hs

theorem webhook_5xx_5xx_200 (resp : Nat → WebhookResponse)
    (jitter : Nat → ℚ) (h0 : resp 0 = .status 503)
    (h1 : resp 1 = .status 503) (h2 : resp 2 = .status 200) :
    (send_webhook resp jitter).attempts = 3 ∧
      (send_webhook resp jitter).success = true := by
  simp [send_webhook, webhookLoop, h0, h1, h2]

theorem webhook_4xx_first (resp : Nat → WebhookResponse)
    (jitter : Nat → ℚ) (c : Nat) (h0 : resp 0 = .status c)
    (h4 : 400 ≤ c) (h5 : c < 500) :
    send_webhook resp jitter = ⟨1, false, []⟩ := by
  simp only [send_webhook, webhookLoop, h0]
  rw [if_neg (by omega), if_neg (by omega)]

/-- C5: the notifier makes at most 3 delivery attempts total, retries
only on 5xx-class responses and on request timeout with exponential
backoff `2 ^ attempt` plus a random value in `[0, 1)` seconds, returns
failure immediately without retry on a 4xx-class response, and returns a
boolean rather than propagating transport errors; an endpoint answering
503, 503, 200 yields exactly 3 attempts and overall success, and an
endpoint answering 404 yields exactly 1 attempt and overall failure. -/
theorem C5_webhook_retry_policy (resp : Nat → WebhookResponse)
    (jitter : Nat → ℚ) (hj : ∀ i, 0 ≤ jitter i ∧ jitter i < 1) :
    (send_webhook resp jitter).attempts ≤ 3 ∧
    (∀ k, k + 1 < (send_webhook resp jitter).attempts →
      (∃ c, resp k = .status c ∧ 500 ≤ c) ∨ resp k = .timeout) ∧
    (∀ s ∈ (send_webhook resp jitter).sleeps,
      ∃ i, s = 2 ^ i + jitter i ∧ 2 ^ i ≤ s ∧ s < 2 ^ i + 1) ∧
    (∀ c, resp 0 = .status c → 400 ≤ c → c < 500 →
      send_webhook resp jitter = ⟨1, false, []⟩) ∧
    (resp 0 = .status 503 → resp 1 = .status 503 → resp 2 = .status 200 →
      (send_webhook resp jitter).attempts = 3 ∧
        (send_webhook resp jitter).success = true) ∧
    (resp 0 = .status 404 → send_webhook resp jitter = ⟨1, false, []⟩) := by
  refine ⟨?_, ?_, ?_, ?_, ?_, ?_⟩
  · simpa using webhookLoop_attempts_le resp jitter 3 3 0
  · intro k hk
    exact webhookLoop_retry_only resp jitter 3 3 0 k (Nat.zero_le k) hk
  · intro s hs
    obtain ⟨i, hi⟩ := webhookLoop_sleeps resp jitter 3 3 0 s hs
    refine ⟨i, hi, ?_, ?_⟩
    · have := (hj i).1
      rw [hi]
      linarith
    · have := (hj i).2
      rw [hi]
      linarith
  · intro c h0 h4 h5
    exact webhook_4xx_first resp jitter c h0 h4 h5
  · intro h0 h1 h2
    exact webhook_5xx_5xx_200 resp jitter h0 h1 h2
  · intro h0
    exact webhook_4xx_first resp jitter 404 h0 (by omega) (by omega)

/-- A simulated endpoint answering 503, 503, 200. -/
def respFix : Nat → WebhookResponse := fun n =>
  if n ≤ 1 then .status 503 else .status 200

/-- Witness for C5 at the 503, 503, 200 endpoint with zero jitter. -/
theorem C5_witness :
    (∀ i : Nat, (0 : ℚ) ≤ 0 ∧ (0 : ℚ) < 1) ∧
    (send_webhook respFix (fun _ => 0)).attempts = 3 ∧
    (send_webhook respFix (fun _ => 0)).success = true :=
  ⟨fun _ => ⟨le_refl 0, zero_lt_one⟩,
   (C5_webhook_retry_policy respFix (fun _ => 0)
      (fun _ => ⟨le_refl 0, zero_lt_one⟩)).2.2.2.2.1 rfl rfl rfl⟩

theorem find?_map_guarded {α : Type} (p : α → Bool) (f : α → α)
    (hf : ∀ s, p (f s) = p s) (l : List α) :
    (l.map (fun s => if p s then f s else s)).find? p =
      (l.find? p).map (fun s => if p s then f s else s) := by
  induction l with
  | nil => rfl
  | cons a l ih =>
    by_cases h : p a = true
    · simp [List.find?_cons, h, hf]
    · simp [List.find?_cons, h, ih]

theorem map_guarded_eq_self {α : Type} (p : α → Bool) (f : α → α)
    (l : List α) (h : ∀ s ∈ l, p s = false) :
    (l.map (fun s => if p s then f s else s)) = l := by
  induction l with
  | nil => rfl
  | cons a l ih =>
    rw [List.map_cons, h a (List.mem_cons_self a l), if_neg (by simp)]
    rw [ih (fun s hs => h s (List.mem_cons_of_mem a hs))]

theorem quizResultUpdate_find? (quiz : QuizRecord) (passed : Bool)
    (cc : Nat) (now qid : String) (l : List QuizRecord)
    (hq : l.find? (fun q => q.quiz_id == qid) = some quiz) :
    (quizResultUpdate quiz passed cc now qid l).find?
        (fun q => q.quiz_id == qid) =
      some { quiz with attempts := quiz.attempts + 1, passed := passed,
                       last_attempt := some now, last_score := some cc } := by
  have hp := List.find?_some hq
  rw [quizResultUpdate, find?_map_guarded
    (fun q : QuizRecord => q.quiz_id == qid)
    (fun q => { q with attempts := quiz.attempts + 1, passed := passed,
                       last_attempt := some now, last_score := some cc })
    (fun s => rfl), hq, Option.map_some']
  simp [hp]

/-- C2: for every stored quiz and every submitted answer map,
`submit_quiz` grades by exact string equality between the submitted
answer for a question id and the recorded correct answer (an absent
answer grades incorrect), returns `passed = true` exactly when every
question grades correct, reports the score as `correct/total`, and
increments the stored `attempts` counter by exactly 1 regardless of
outcome (also when the call later dies on an orphaned quiz). -/
theorem C2_grading_semantics (st : Store) (qid : String)
    (answers : List (String × String)) (now : String) (quiz : QuizRecord)
    (hq : st.quizzes.find? (fun q => q.quiz_id == qid) = some quiz) :
    (submit_quiz st qid answers now).store ≠ none ∧
    (∀ st', (submit_quiz st qid answers now).store = some st' →
      st'.quizzes.find? (fun q => q.quiz_id == qid) =
        some { quiz with
                attempts := quiz.attempts + 1,
                passed := (correct_count_of quiz.questions answers ==
                  quiz.questions.length),
                last_attempt := some now,
                last_score := some (correct_count_of quiz.questions answers) }) ∧
    (∀ pd, (submit_quiz st qid answers now).passedOf = some pd →
      (pd = true ↔
        ∀ q ∈ quiz.questions, answers.lookup q.id = some q.correct_answer)) ∧
    (∀ att, (submit_quiz st qid answers now).attemptsOf = some att →
      att = quiz.attempts + 1) ∧
    (∀ sc, (submit_quiz st qid answers now).scoreOf = some sc →
      sc = toString (correct_count_of quiz.questions answers) ++ "/" ++
        toString quiz.questions.length) := by
  have hfind := quizResultUpdate_find? quiz
    (correct_count_of quiz.questions answers == quiz.questions.length)
    (correct_count_of quiz.questions answers) now qid st.quizzes hq
  have hiff : ((correct_count_of quiz.questions answers ==
      quiz.questions.length) = true ↔
      ∀ q ∈ quiz.questions, answers.lookup q.id = some q.correct_answer) := by
    rw [beq_iff_eq, correct_count_of, List.countP_eq_length]
    constructor
    · intro h q hqm
      have := h q hqm
      simpa [beq_iff_eq] using this
    · intro h q hqm
      simp [beq_iff_eq, h q hqm]
  simp only [submit_quiz, hq]
  cases hpb : (correct_count_of quiz.questions answers ==
      quiz.questions.length) with
  | true =>
    simp only [if_pos rfl]
    cases hsf : st.signatures.find? (fun s => s.quiz_id == some qid) with
    | none =>
      simp only [SubmitOutcome.store, SubmitOutcome.passedOf,
        SubmitOutcome.attemptsOf, SubmitOutcome.scoreOf]
      refine ⟨by simp, ?_, by simp, by simp, by simp⟩
      intro st' hst'
      cases hst'
      rw [hpb] at hfind
      exact hfind
    | some sig =>
      simp only [SubmitOutcome.store, SubmitOutcome.passedOf,
        SubmitOutcome.attemptsOf, SubmitOutcome.scoreOf]
      refine ⟨by simp, ?_, ?_, ?_, ?_⟩
      · intro st' hst'
        cases hst'
        rw [hpb] at hfind
        exact hfind
      · intro pd hpd
        cases hpd
        simpa using hiff.mp hpb
      · intro att hatt
        cases hatt
        rfl
      · intro sc hsc
        cases hsc
        rfl
  | false =>
    rw [if_neg Bool.false_ne_true]
    cases hsf : (failSignatureUpdate qid st.signatures).find?
        (fun s => s.quiz_id == some qid) with
    | none =>
      simp only [SubmitOutcome.store, SubmitOutcome.passedOf,
        SubmitOutcome.attemptsOf, SubmitOutcome.scoreOf]
      refine ⟨by simp, ?_, by simp, by simp, by simp⟩
      intro st' hst'
      cases hst'
      rw [hpb] at hfind
      exact hfind
    | some sig =>
      simp only [SubmitOutcome.store, SubmitOutcome.passedOf,
        SubmitOutcome.attemptsOf, SubmitOutcome.scoreOf]
      refine ⟨by simp, ?_, ?_, ?_, ?_⟩
      · intro st' hst'
        cases hst'
        rw [hpb] at hfind
        exact hfind
      · intro pd hpd
        cases hpd
        simp only [Bool.false_eq_true, false_iff]
        intro hall
        rw [hiff.mpr hall] at hpb
        exact Bool.true_eq_false ▸ hpb
      · intro att hatt
        cases hatt
        rfl
      · intro sc hsc
        cases hsc
        rfl

/-- A stored quiz holding the fallback question set, used as concrete
input by several witnesses. -/
def quizFix : QuizRecord :=
  { quiz_id := "qz1", tracking_id := "t1",
    questions := get_fallback_questions "", created_at := "2024-01-01T00:00:00",
    attempts := 0, passed := false }

/-- A stored signature in state QUIZ_PENDING linked to `quizFix`. -/
def sigPendingFix : SignatureRecord :=
  { tracking_id := "t1", document_id := "company_policy",
    document_title := "Company Policy", sender_email := "alice@example.com",
    sender_name := "Alice", receiver_email := "bob@example.com",
    purpose := "Annual review", status := .quiz_pending,
    created_at := "2024-01-01T00:00:00", updated_at := "2024-01-01T00:00:00",
    acknowledged := true, quiz_id := some "qz1", quiz_passed := false,
    completed_at := none }

/-- A store holding `sigPendingFix` and `quizFix`. -/
def storeFix : Store := ⟨[sigPendingFix], [quizFix]⟩

/-- The answer map built from each fallback question's recorded correct
answer. -/
def allCorrectAnswers : List (String × String) :=
  [("q1", "All of the above"), ("q2", "All employees"),
   ("q3", "Immediately upon acknowledgment")]

/-- Witness for C2 at a concrete store and the all-correct answer map. -/
theorem C2_witness :
    (submit_quiz storeFix "qz1" allCorrectAnswers "2024-01-02T00:00:00").store ≠
      none ∧
    (∀ pd, (submit_quiz storeFix "qz1" allCorrectAnswers
        "2024-01-02T00:00:00").passedOf = some pd →
      (pd = true ↔ ∀ q ∈ quizFix.questions,
        allCorrectAnswers.lookup q.id = some q.correct_answer)) := by
  have h := C2_grading_semantics storeFix "qz1" allCorrectAnswers
    "2024-01-02T00:00:00" quizFix rfl
  exact ⟨h.1, h.2.2.1⟩

theorem mem_guarded_update {α : Type} (p : α → Bool) (f : α → α)
    (l : List α) (s : α)
    (hs : s ∈ l.map (fun x => if p x then f x else x)) (hp : p s = true) :
    ∃ x ∈ l, p x = true ∧ s = f x := by
  obtain ⟨x, hx, hxs⟩ := List.mem_map.mp hs
  by_cases h : p x = true
  · exact ⟨x, hx, h, by rw [← hxs, if_pos h]⟩
  · rw [if_neg h] at hxs
    rw [hxs] at h
    exact absurd hp h

theorem all_correct_count (questions : List QuizQuestion)
    (answers : List (String × String))
    (h : ∀ q ∈ questions, answers.lookup q.id = some q.correct_answer) :
    correct_count_of questions answers = questions.length := by
  rw [correct_count_of, List.countP_eq_length]
  intro q hq
  simp [beq_iff_eq, h q hq]

theorem not_all_correct_count (questions : List QuizQuestion)
    (answers : List (String × String))
    (h : ∃ q ∈ questions, ¬ answers.lookup q.id = some q.correct_answer) :
    ¬ correct_count_of questions answers = questions.length := by
  intro hcc
  obtain ⟨q, hq, hne⟩ := h
  have := (List.countP_eq_length.mp hcc) q hq
  simp [beq_iff_eq] at this
  exact hne this

/-- C1: for every stored quiz (with the standard 3 questions) whose
linked signature exists, submitting the answer map built from each
question's recorded correct answer yields `passed = true`, score
`"3/3"`, and moves every signature referencing the quiz to COMPLETED
with non-null `completed_at`; submitting a map with at least one wrong
or missing answer yields `passed = false` and moves them to QUIZ_FAILED;
in both cases the reported attempts counter is the stored one plus 1. -/
theorem C1_quiz_submission_outcomes (st : Store) (qid : String)
    (answers : List (String × String)) (now : String)
    (quiz : QuizRecord) (sig : SignatureRecord)
    (hq : st.quizzes.find? (fun q => q.quiz_id == qid) = some quiz)
    (hsig : st.signatures.find? (fun s => s.quiz_id == some qid) = some sig)
    (hlen : quiz.questions.length = 3) :
    ((∀ q ∈ quiz.questions, answers.lookup q.id = some q.correct_answer) →
      ∃ st' ev, submit_quiz st qid answers now =
          .ok true "3/3" (quiz.attempts + 1) st' ev ∧
        ∀ s ∈ st'.signatures, s.quiz_id = some qid →
          s.status = .completed ∧ s.completed_at ≠ none) ∧
    ((∃ q ∈ quiz.questions, ¬ answers.lookup q.id = some q.correct_answer) →
      ∃ sc st' ev, submit_quiz st qid answers now =
          .ok false sc (quiz.attempts + 1) st' ev ∧
        ∀ s ∈ st'.signatures, s.quiz_id = some qid →
          s.status = .quiz_failed) := by
  constructor
  · intro hall
    have hcc := all_correct_count quiz.questions answers hall
    have hpb : (correct_count_of quiz.questions answers ==
        quiz.questions.length) = true := beq_iff_eq.mpr hcc
    have heq : submit_quiz st qid answers now =
        .ok true "3/3" (quiz.attempts + 1)
          ⟨completeSignatureUpdate qid now st.signatures,
           quizResultUpdate quiz true
             (correct_count_of quiz.questions answers) now qid st.quizzes⟩
          [⟨"signature_completed", sig.receiver_email⟩,
           ⟨"signature_completed_notification", sig.sender_email⟩] := by
      simp only [submit_quiz, hq, hpb]
      rw [if_pos trivial]
      simp only [hsig]
      congr 1
      rw [hcc, hlen]
      rfl
    refine ⟨_, _, heq, ?_⟩
    intro s hs hsqid
    have hp : (s.quiz_id == some qid) = true := beq_iff_eq.mpr hsqid
    obtain ⟨x, hx, hpx, hsx⟩ :=
      mem_guarded_update _ _ _ s hs hp
    rw [hsx]
    exact ⟨rfl, by simp⟩
  · intro hex
    have hcc := not_all_correct_count quiz.questions answers hex
    have hpb : (correct_count_of quiz.questions answers ==
        quiz.questions.length) = false := by
      simp [hcc]
    have hfind : (failSignatureUpdate qid st.signatures).find?
        (fun s => s.quiz_id == some qid) =
        some { sig with status := DocumentStatus.quiz_failed } := by
      rw [failSignatureUpdate, find?_map_guarded
        (fun s : SignatureRecord => s.quiz_id == some qid)
        (fun s => { s with status := DocumentStatus.quiz_failed })
        (fun s => rfl), hsig, Option.map_some']
      simp [List.find?_some hsig]
    have heq : submit_quiz st qid answers now =
        .ok false (toString (correct_count_of quiz.questions answers) ++
            "/" ++ toString quiz.questions.length) (quiz.attempts + 1)
          ⟨failSignatureUpdate qid st.signatures,
           quizResultUpdate quiz false
             (correct_count_of quiz.questions answers) now qid st.quizzes⟩
          [⟨"quiz_failed", sig.receiver_email⟩] := by
      simp only [submit_quiz, hq, hpb]
      rw [if_neg Bool.false_ne_true]
      simp only [hfind]
    refine ⟨_, _, _, heq, ?_⟩
    intro s hs hsqid
    have hp : (s.quiz_id == some qid) = true := beq_iff_eq.mpr hsqid
    obtain ⟨x, hx, hpx, hsx⟩ :=
      mem_guarded_update _ _ _ s hs hp
    rw [hsx]

/-- Witness for C1 at a concrete store and the all-correct answer map. -/
theorem C1_witness :
    ∃ st' ev, submit_quiz storeFix "qz1" allCorrectAnswers
        "2024-01-02T00:00:00" =
        .ok true "3/3" (quizFix.attempts + 1) st' ev ∧
      ∀ s ∈ st'.signatures, s.quiz_id = some "qz1" →
        s.status = .completed ∧ s.completed_at ≠ none :=
  (C1_quiz_submission_outcomes storeFix "qz1" allCorrectAnswers
    "2024-01-02T00:00:00" quizFix sigPendingFix rfl rfl rfl).1 (by decide)

/-- A store holding `quizFix` but no signature at all: the quiz is
orphaned (its `tracking_id` back-reference resolves to nothing and no
signature's `quiz_id` points at it). -/
def orphanStoreFix : Store := ⟨[], [quizFix]⟩

/-- Counterexample to C3: on an orphaned quiz the handler does not
complete without error — it dies with an unhandled `NoneType` error
while assembling the notification, after having persisted the quiz
update.  The quiz is present in the store, so this is not the 404
path. -/
theorem C3_counterexample :
    orphanStoreFix.quizzes.find? (fun q => q.quiz_id == "qz1") ≠ none ∧
    (submit_quiz orphanStoreFix "qz1" [] "2024-01-02T00:00:00").completedOk =
      false := by
  constructor
  · decide
  · decide

/-- C3 (amended): for an orphaned quiz, `submit_quiz` still records the
quiz outcome (attempts, passed, last score, last attempt) and touches no
signature record and dispatches no notification, but it then dies with
an unhandled error instead of completing; the recorded store is exactly
the quiz-table update. -/
theorem C3_orphan_quiz_amended (st : Store) (qid : String)
    (answers : List (String × String)) (now : String) (quiz : QuizRecord)
    (hq : st.quizzes.find? (fun q => q.quiz_id == qid) = some quiz)
    (horphan : ∀ s ∈ st.signatures, ¬ s.quiz_id = some qid) :
    submit_quiz st qid answers now =
      .crashed ⟨st.signatures,
        quizResultUpdate quiz
          (correct_count_of quiz.questions answers == quiz.questions.length)
          (correct_count_of quiz.questions answers) now qid st.quizzes⟩ := by
  have hnone : st.signatures.find? (fun s => s.quiz_id == some qid) = none :=
    List.find?_eq_none.mpr (fun s hs => by
      simpa [beq_iff_eq] using horphan s hs)
  have hfalse : ∀ s ∈ st.signatures, (s.quiz_id == some qid) = false :=
    fun s hs => by simpa [beq_iff_eq] using horphan s hs
  have hcompl : completeSignatureUpdate qid now st.signatures =
      st.signatures :=
    map_guarded_eq_self (fun s : SignatureRecord => s.quiz_id == some qid)
      _ st.signatures hfalse
  have hfail : failSignatureUpdate qid st.signatures = st.signatures :=
    map_guarded_eq_self (fun s : SignatureRecord => s.quiz_id == some qid)
      _ st.signatures hfalse
  simp only [submit_quiz, hq]
  cases hpb : (correct_count_of quiz.questions answers ==
      quiz.questions.length) with
  | true =>
    rw [if_pos rfl]
    simp only [hnone, hcompl]
  | false =>
    rw [if_neg Bool.false_ne_true]
    simp only [hfail, hnone]

/-- Witness for C3's amended theorem at the concrete orphaned store. -/
theorem C3_witness :
    submit_quiz orphanStoreFix "qz1" [] "2024-01-02T00:00:00" =
      .crashed ⟨orphanStoreFix.signatures,
        quizResultUpdate quizFix
          (correct_count_of quizFix.questions [] == quizFix.questions.length)
          (correct_count_of quizFix.questions []) "2024-01-02T00:00:00" "qz1"
          orphanStoreFix.quizzes⟩ :=
  C3_orphan_quiz_amended orphanStoreFix "qz1" [] "2024-01-02T00:00:00"
    quizFix rfl (by decide)

theorem sigInv_ackUpdate (tid : String) (sub : SignatureSubmission)
    (qid now : String) (l : List SignatureRecord)
    (h : ∀ s ∈ l, SigInv s) :
    ∀ s ∈ ackSignatureUpdate tid sub qid now l, SigInv s := by
  intro s hs
  rw [ackSignatureUpdate] at hs
  obtain ⟨x, hx, hxs⟩ := List.mem_map.mp hs
  by_cases hp : (x.tracking_id == tid) = true
  · rw [if_pos hp] at hxs
    rw [← hxs]
    constructor
    · constructor
      · intro _
        exact Or.inl rfl
      · intro _
        simp
    · intro hcon
      simp at hcon
  · rw [if_neg hp] at hxs
    rw [← hxs]
    exact h x hx

theorem sigInv_completeUpdate (qid now : String) (l : List SignatureRecord)
    (h : ∀ s ∈ l, SigInv s) :
    ∀ s ∈ completeSignatureUpdate qid now l, SigInv s := by
  intro s hs
  rw [completeSignatureUpdate] at hs
  obtain ⟨x, hx, hxs⟩ := List.mem_map.mp hs
  by_cases hp : (x.quiz_id == some qid) = true
  · rw [if_pos hp] at hxs
    rw [← hxs]
    have hq : x.quiz_id = some qid := beq_iff_eq.mp hp
    constructor
    · constructor
      · intro _
        exact Or.inr (Or.inr rfl)
      · intro _
        simp [hq]
    · intro _
      simp
  · rw [if_neg hp] at hxs
    rw [← hxs]
    exact h x hx

theorem sigInv_failUpdate (qid : String) (l : List SignatureRecord)
    (h : ∀ s ∈ l, SigInv s) :
    ∀ s ∈ failSignatureUpdate qid l, SigInv s := by
  intro s hs
  rw [failSignatureUpdate] at hs
  obtain ⟨x, hx, hxs⟩ := List.mem_map.mp hs
  by_cases hp : (x.quiz_id == some qid) = true
  · rw [if_pos hp] at hxs
    rw [← hxs]
    have hq : x.quiz_id = some qid := beq_iff_eq.mp hp
    constructor
    · constructor
      · intro _
        exact Or.inr (Or.inl rfl)
      · intro _
        simp [hq]
    · intro hcon
      simp at hcon
  · rw [if_neg hp] at hxs
    rw [← hxs]
    exact h x hx

theorem sigInv_runOp (st : Store) (op : Op)
    (h : ∀ s ∈ st.signatures, SigInv s) :
    ∀ s ∈ (runOp st op).signatures, SigInv s := by
  cases op with
  | create docs request tid now =>
    cases hd : docs request.document_id with
    | none => simpa [runOp, send_document, hd] using h
    | some document =>
      simp only [runOp, send_document, hd]
      intro s hs
      rcases List.mem_append.mp hs with hmem | hmem
      · exact h s hmem
      · rw [List.mem_singleton.mp hmem]
        constructor
        · constructor
          · intro hcon
            simp at hcon
          · intro hcon
            rcases hcon with hcon | hcon | hcon <;> simp at hcon
        · intro hcon
          simp at hcon
  | acknowledge docs gen tid sub qid now =>
    cases hf : st.signatures.find? (fun s => s.tracking_id == tid) with
    | none => simpa [runOp, submit_signature, hf] using h
    | some sig =>
      cases hd : docs sig.document_id with
      | none => simpa [runOp, submit_signature, hf, hd] using h
      | some document =>
        simp only [runOp, submit_signature, hf, hd]
        exact sigInv_ackUpdate tid sub qid now st.signatures h
  | submitQuiz qid answers now =>
    cases hq : st.quizzes.find? (fun q => q.quiz_id == qid) with
    | none => simpa [runOp, submit_quiz, hq] using h
    | some quiz =>
      simp only [runOp, submit_quiz, hq]
      cases hpb : (correct_count_of quiz.questions answers ==
          quiz.questions.length) with
      | true =>
        rw [if_pos rfl]
        cases hsf : st.signatures.find? (fun s => s.quiz_id == some qid) with
        | none => exact sigInv_completeUpdate qid now st.signatures h
        | some sig => exact sigInv_completeUpdate qid now st.signatures h
      | false =>
        rw [if_neg Bool.false_ne_true]
        cases hsf : (failSignatureUpdate qid st.signatures).find?
            (fun s => s.quiz_id == some qid) with
        | none => exact sigInv_failUpdate qid st.signatures h
        | some sig => exact sigInv_failUpdate qid st.signatures h

theorem sigInv_runOps (ops : List Op) :
    ∀ st : Store, (∀ s ∈ st.signatures, SigInv s) →
      ∀ s ∈ (runOps st ops).signatures, SigInv s := by
  induction ops with
  | nil => intro st h; simpa [runOps] using h
  | cons op ops ih =>
    intro st h
    have : runOps st (op :: ops) = runOps (runOp st op) ops := rfl
    rw [this]
    exact ih (runOp st op) (sigInv_runOp st op h)

/-- A document catalog resolving the one catalog id the fixtures use. -/
def docsFix : String → Option Document := fun document_id =>
  if document_id == "company_policy" then
    some ⟨"Company Policy", "Policy content"⟩
  else none

/-- A send-document request for the catalog document. -/
def reqFix : SendDocumentRequest :=
  ⟨"alice@example.com", "Alice", "Annual review", "bob@example.com",
   "company_policy"⟩

/-- An acknowledgment payload with `acknowledged = true`. -/
def subFix : SignatureSubmission := ⟨true, "2024-01-02", "NYC", "Bob"⟩

/-- Create, acknowledge (generator fails, fallback questions), pass the
quiz, then resubmit the same quiz with an empty answer map. -/
def cexOps : List Op :=
  [.create docsFix reqFix "t1" "2024-01-01T00:00:00",
   .acknowledge docsFix none "t1" subFix "qz1" "2024-01-02T00:00:00",
   .submitQuiz "qz1" allCorrectAnswers "2024-01-03T00:00:00",
   .submitQuiz "qz1" [] "2024-01-04T00:00:00"]

/-- Counterexample to C4: after create, acknowledge, a passing
submission and then a failing resubmission of the same quiz, the
signature sits at QUIZ_FAILED while its `completed_at` from the earlier
completion is still non-null, so the spec's biconditional fails on a
reachable store. -/
theorem C4_counterexample : ¬ StoreInvFull (runOps emptyStore cexOps) := by
  decide

/-- C4 (amended): every signature record reachable from the empty store
by any sequence of create, acknowledge and submit-quiz operations
satisfies the `quiz_id` biconditional of the spec, and the forward
direction for `completed_at`: a COMPLETED record has non-null
`completed_at` (the reverse direction is the part the counterexample
kills). -/
theorem C4_invariant_amended (ops : List Op) :
    ∀ s ∈ (runOps emptyStore ops).signatures, SigInv s :=
  sigInv_runOps ops emptyStore (fun s hs => absurd hs (List.not_mem_nil s))

/-- The signature record as it stands after create and acknowledge of
the fixture operations. -/
def c4WitnessSig : SignatureRecord :=
  { tracking_id := "t1", document_id := "company_policy",
    document_title := "Company Policy", sender_email := "alice@example.com",
    sender_name := "Alice", receiver_email := "bob@example.com",
    purpose := "Annual review", status := .quiz_pending,
    created_at := "2024-01-01T00:00:00", updated_at := "2024-01-02T00:00:00",
    acknowledged := true, quiz_id := some "qz1", quiz_passed := false,
    completed_at := none, acknowledgment_date := some "2024-01-02",
    acknowledgment_location := some "NYC", signer_name := some "Bob" }

/-- Witness for C4's amended invariant on a concrete reachable store. -/
theorem C4_witness :
    c4WitnessSig ∈ (runOps emptyStore (cexOps.take 2)).signatures ∧
    SigInv c4WitnessSig :=
  ⟨by decide,
   C4_invariant_amended (cexOps.take 2) c4WitnessSig (by decide)⟩

theorem generate_quiz_questions_length (content : String)
    (gen : Option (List RawQuestion)) :
    (generate_quiz_questions content gen).length = 3 := by
  cases gen with
  | none => rfl
  | some questions_list =>
    simp only [generate_quiz_questions]
    have hlen : ((questions_list.take 3).enum.map (fun p =>
        ({ id := "q" ++ toString (p.1 + 1), question := p.2.question,
           options := p.2.options, correct_answer := p.2.correct_answer } :
          QuizQuestion))).length = min 3 questions_list.length := by
      simp
    by_cases h : min 3 questions_list.length < 3
    · rw [if_pos (by rw [hlen]; exact h)]
      rfl
    · rw [if_neg (by rw [hlen]; exact h)]
      rw [hlen]
      omega

theorem submit_signature_eq (docs : String → Option Document)
    (gen : Option (List RawQuestion)) (st : Store) (tid : String)
    (sub : SignatureSubmission) (qid now : String)
    (sig : SignatureRecord) (d : Document)
    (hfind : st.signatures.find? (fun s => s.tracking_id == tid) = some sig)
    (hdoc : docs sig.document_id = some d) :
    submit_signature docs gen st tid sub qid now =
      .ok qid
        ⟨ackSignatureUpdate tid sub qid now st.signatures,
         st.quizzes ++
           [{ quiz_id := qid, tracking_id := tid,
              questions := generate_quiz_questions d.content gen,
              created_at := now, attempts := 0, passed := false }]⟩
        [⟨"quiz_link", sig.receiver_email⟩] := by
  simp only [submit_signature, hfind, hdoc]

theorem ackUpdate_mem_props (tid : String) (sub : SignatureSubmission)
    (qid now : String) (l : List SignatureRecord) :
    ∀ s ∈ ackSignatureUpdate tid sub qid now l, s.tracking_id = tid →
      s.quiz_id = some qid ∧ s.status = .quiz_pending ∧
      s.acknowledged = sub.acknowledged := by
  intro s hs htid
  rw [ackSignatureUpdate] at hs
  have hp : (s.tracking_id == tid) = true := beq_iff_eq.mpr htid
  obtain ⟨x, hx, hpx, hsx⟩ := mem_guarded_update _ _ _ s hs hp
  rw [hsx]
  exact ⟨rfl, rfl, rfl⟩

def sentSigFix : SignatureRecord :=
  { tracking_id := "t1", document_id := "company_policy",
    document_title := "Company Policy", sender_email := "alice@example.com",
    sender_name := "Alice", receiver_email := "bob@example.com",
    purpose := "Annual review", status := .sent,
    created_at := "2024-01-01T00:00:00", updated_at := "2024-01-01T00:00:00",
    acknowledged := false, quiz_id := none, quiz_passed := false,
    completed_at := none }

def sentStoreFix : Store := ⟨[sentSigFix], []⟩

def badGen : Option (List RawQuestion) :=
  some [⟨"Q1", ["A", "B"], "A"⟩, ⟨"Q2", ["A", "B"], "A"⟩,
        ⟨"Q3", ["A", "B"], "C"⟩]

/-- Counterexample to C6: a successful generator response whose three
questions each carry only 2 options (and one whose correct answer is
not among its options) is stored as-is by acknowledge, so the produced
quiz violates the 4-options/membership shape the claim promises for
every generator outcome. -/
theorem C6_counterexample :
    ((submit_signature docsFix badGen sentStoreFix "t1" subFix "qz1"
        "2024-01-02T00:00:00").quizzesOf.all
      (fun qr => qr.questions.all wellFormedQuestion)) = false := by
  decide

/-- C6 (amended): for every stored signature whose document resolves,
acknowledge always succeeds, always stores a quiz with exactly 3
questions, and always points the signature at the new quiz with status
QUIZ_PENDING; but the shape guarantee on the questions (exactly 4
options, correct answer among them) holds only on the generator-failure
path, where the static fallback set is used — a successful generator
response is stored without validation (which is what the counterexample
exploits). -/
theorem C6_acknowledge_quiz_amended (docs : String → Option Document)
    (gen : Option (List RawQuestion)) (st : Store) (tid : String)
    (sub : SignatureSubmission) (qid now : String)
    (sig : SignatureRecord) (d : Document)
    (hfind : st.signatures.find? (fun s => s.tracking_id == tid) = some sig)
    (hdoc : docs sig.document_id = some d) :
    ∃ st' ev, submit_signature docs gen st tid sub qid now =
        .ok qid st' ev ∧
      st'.quizzes = st.quizzes ++
        [{ quiz_id := qid, tracking_id := tid,
           questions := generate_quiz_questions d.content gen,
           created_at := now, attempts := 0, passed := false }] ∧
      (generate_quiz_questions d.content gen).length = 3 ∧
      (∀ s ∈ st'.signatures, s.tracking_id = tid →
        s.quiz_id = some qid ∧ s.status = .quiz_pending) ∧
      (gen = none →
        (generate_quiz_questions d.content gen).all wellFormedQuestion =
          true) := by
  refine ⟨_, _, submit_signature_eq docs gen st tid sub qid now sig d
    hfind hdoc, rfl, generate_quiz_questions_length d.content gen, ?_, ?_⟩
  · intro s hs htid
    have h := ackUpdate_mem_props tid sub qid now st.signatures s hs htid
    exact ⟨h.1, h.2.1⟩
  · intro hgen
    rw [hgen]
    have : generate_quiz_questions d.content none =
        generate_quiz_questions "" none := rfl
    rw [this]
    decide

/-- C7: the acknowledge operation accepts a payload whose
`acknowledged` field is false: it records the submitted boolean, still
creates a quiz, and still moves the signature to QUIZ_PENDING, rather
than rejecting the submission. -/
theorem C7_acknowledged_false_accepted (docs : String → Option Document)
    (gen : Option (List RawQuestion)) (st : Store) (tid : String)
    (sub : SignatureSubmission) (qid now : String)
    (sig : SignatureRecord) (d : Document)
    (hfind : st.signatures.find? (fun s => s.tracking_id == tid) = some sig)
    (hdoc : docs sig.document_id = some d)
    (hack : sub.acknowledged = false) :
    ∃ st' ev, submit_signature docs gen st tid sub qid now =
        .ok qid st' ev ∧
      (∃ qr ∈ st'.quizzes, qr.quiz_id = qid) ∧
      (∀ s ∈ st'.signatures, s.tracking_id = tid →
        s.acknowledged = false ∧ s.status = .quiz_pending ∧
        s.quiz_id = some qid) := by
  refine ⟨_, _, submit_signature_eq docs gen st tid sub qid now sig d
    hfind hdoc, ⟨_, List.mem_append_right _ (List.mem_singleton.mpr rfl),
      rfl⟩, ?_⟩
  intro s hs htid
  have h := ackUpdate_mem_props tid sub qid now st.signatures s hs htid
  exact ⟨hack ▸ h.2.2, h.2.1, h.1⟩

/-- C10: acknowledge has no guard on the current status: for any stored
signature — whatever its status, including COMPLETED — a repeat
acknowledge succeeds, inserts a fresh quiz, overwrites the signature's
`quiz_id` with the new quiz id and sets status QUIZ_PENDING, while the
previously referenced quiz record stays in the store referenced by no
signature (given that only this signature referenced it and the fresh
id is new). -/
theorem C10_reacknowledge_no_guard (docs : String → Option Document)
    (gen : Option (List RawQuestion)) (st : Store) (tid : String)
    (sub : SignatureSubmission) (newQid now : String)
    (sig : SignatureRecord) (d : Document) (oldQid : String)
    (oldQuiz : QuizRecord)
    (hfind : st.signatures.find? (fun s => s.tracking_id == tid) = some sig)
    (hdoc : docs sig.document_id = some d)
    (hold : sig.quiz_id = some oldQid)
    (holdq : oldQuiz ∈ st.quizzes)
    (huniq : ∀ s ∈ st.signatures, s.quiz_id = some oldQid →
      s.tracking_id = tid)
    (hne : newQid ≠ oldQid) :
    ∃ st' ev, submit_signature docs gen st tid sub newQid now =
        .ok newQid st' ev ∧
      oldQuiz ∈ st'.quizzes ∧
      (∃ qr ∈ st'.quizzes, qr.quiz_id = newQid) ∧
      (∀ s ∈ st'.signatures, s.tracking_id = tid →
        s.quiz_id = some newQid ∧ s.status = .quiz_pending) ∧
      (∀ s ∈ st'.signatures, s.quiz_id ≠ some oldQid) := by
  refine ⟨_, _, submit_signature_eq docs gen st tid sub newQid now sig d
    hfind hdoc, List.mem_append_left _ holdq,
    ⟨_, List.mem_append_right _ (List.mem_singleton.mpr rfl), rfl⟩, ?_, ?_⟩
  · intro s hs htid
    have h := ackUpdate_mem_props tid sub newQid now st.signatures s hs htid
    exact ⟨h.1, h.2.1⟩
  · intro s hs
    rw [ackSignatureUpdate] at hs
    obtain ⟨x, hx, hxs⟩ := List.mem_map.mp hs
    by_cases hp : (x.tracking_id == tid) = true
    · rw [if_pos hp] at hxs
      rw [← hxs]
      intro hcon
      simp only [Option.some.injEq] at hcon
      exact hne hcon
    · rw [if_neg hp] at hxs
      rw [← hxs]
      intro hcon
      exact hp (beq_iff_eq.mpr (huniq x hx hcon))

/-- The resolved fixture document. -/
def docFixDoc : Document := ⟨"Company Policy", "Policy content"⟩

/-- Witness for C6's amended theorem: acknowledge on the concrete SENT
store with a failed generator. -/
theorem C6_witness :
    ∃ st' ev, submit_signature docsFix none sentStoreFix "t1" subFix "qz1"
        "2024-01-02T00:00:00" = .ok "qz1" st' ev ∧
      st'.quizzes = sentStoreFix.quizzes ++
        [{ quiz_id := "qz1", tracking_id := "t1",
           questions := generate_quiz_questions docFixDoc.content none,
           created_at := "2024-01-02T00:00:00", attempts := 0,
           passed := false }] ∧
      (generate_quiz_questions docFixDoc.content none).length = 3 ∧
      (∀ s ∈ st'.signatures, s.tracking_id = "t1" →
        s.quiz_id = some "qz1" ∧ s.status = .quiz_pending) ∧
      ((none : Option (List RawQuestion)) = none →
        (generate_quiz_questions docFixDoc.content none).all
          wellFormedQuestion = true) :=
  C6_acknowledge_quiz_amended docsFix none sentStoreFix "t1" subFix "qz1"
    "2024-01-02T00:00:00" sentSigFix docFixDoc rfl rfl

/-- An acknowledgment payload with `acknowledged = false`. -/
def subFalseFix : SignatureSubmission := ⟨false, "2024-01-02", "NYC", "Bob"⟩

/-- Witness for C7: acknowledge with `acknowledged = false` at the
concrete SENT store. -/
theorem C7_witness :
    ∃ st' ev, submit_signature docsFix none sentStoreFix "t1" subFalseFix
        "qz1" "2024-01-02T00:00:00" = .ok "qz1" st' ev ∧
      (∃ qr ∈ st'.quizzes, qr.quiz_id = "qz1") ∧
      (∀ s ∈ st'.signatures, s.tracking_id = "t1" →
        s.acknowledged = false ∧ s.status = .quiz_pending ∧
        s.quiz_id = some "qz1") :=
  C7_acknowledged_false_accepted docsFix none sentStoreFix "t1" subFalseFix
    "qz1" "2024-01-02T00:00:00" sentSigFix docFixDoc rfl rfl rfl

/-- The fixture signature after quiz completion: COMPLETED, linked to
`quizFix`, `completed_at` set. -/
def sigCompletedFix : SignatureRecord :=
  { sigPendingFix with
    status := DocumentStatus.completed,
    quiz_passed := true,
    completed_at := some "2024-01-03T00:00:00" }

/-- A store holding the COMPLETED signature and its quiz. -/
def completedStoreFix : Store := ⟨[sigCompletedFix], [quizFix]⟩

/-- Witness for C10: repeat acknowledge against the concrete COMPLETED
store. -/
theorem C10_witness :
    ∃ st' ev, submit_signature docsFix none completedStoreFix "t1" subFix
        "qz2" "2024-01-04T00:00:00" = .ok "qz2" st' ev ∧
      quizFix ∈ st'.quizzes ∧
      (∃ qr ∈ st'.quizzes, qr.quiz_id = "qz2") ∧
      (∀ s ∈ st'.signatures, s.tracking_id = "t1" →
        s.quiz_id = some "qz2" ∧ s.status = .quiz_pending) ∧
      (∀ s ∈ st'.signatures, s.quiz_id ≠ some "qz1") :=
  C10_reacknowledge_no_guard docsFix none completedStoreFix "t1" subFix
    "qz2" "2024-01-04T00:00:00" sigCompletedFix docFixDoc "qz1" quizFix
    rfl rfl rfl (by decide) (by decide) (by decide)

theorem strLtB_iff (a b : String) : strLtB a b = true ↔ a < b := by
  rw [strLtB, decide_eq_true_eq, String.lt_iff_toList_lt]

theorem not_strLtB_iff (a b : String) : (!strLtB a b) = true ↔ b ≤ a := by
  rw [Bool.not_eq_true', strLtB, decide_eq_false_iff_not,
    String.le_iff_toList_le]
  exact not_lt

/-- C8: for every store, limit L >= 1 and offset O, the dashboard
returns a page of length min(L, total - O) (truncated subtraction, i.e.
min(L, max(0, total - O))), ordered by `created_at` descending, together
with the total number of stored signature records, and returns the store
unchanged. -/
theorem C8_dashboard_pagination (st : Store) (L O : Nat) (hL : 1 ≤ L) :
    ((get_dashboard st L O).1.signatures).length =
        min L (st.signatures.length - O) ∧
    (get_dashboard st L O).1.total = st.signatures.length ∧
    ((get_dashboard st L O).1.signatures).Pairwise
      (fun a b => b.created_at ≤ a.created_at) ∧
    (get_dashboard st L O).2 = st := by
  refine ⟨?_, ?_, ?_, rfl⟩
  · simp only [get_dashboard]
    rw [List.length_take, List.length_drop, List.length_mergeSort]
  · simp only [get_dashboard]
    rw [List.length_mergeSort]
  · simp only [get_dashboard]
    have htrans : ∀ a b c : SignatureRecord,
        (!strLtB a.created_at b.created_at) = true →
        (!strLtB b.created_at c.created_at) = true →
        (!strLtB a.created_at c.created_at) = true := by
      intro a b c hab hbc
      rw [not_strLtB_iff] at hab hbc ⊢
      exact le_trans hbc hab
    have htotal : ∀ a b : SignatureRecord,
        ((!strLtB a.created_at b.created_at) ||
          (!strLtB b.created_at a.created_at)) = true := by
      intro a b
      rcases le_total a.created_at b.created_at with h | h
      · rw [Bool.or_eq_true, not_strLtB_iff, not_strLtB_iff]
        exact Or.inr h
      · rw [Bool.or_eq_true, not_strLtB_iff, not_strLtB_iff]
        exact Or.inl h
    have hsorted := List.sorted_mergeSort htrans htotal st.signatures
    have hsub : List.Sublist
        (((st.signatures.mergeSort
            (fun a b => !strLtB a.created_at b.created_at)).drop O).take L)
        (st.signatures.mergeSort
          (fun a b => !strLtB a.created_at b.created_at)) :=
      (List.take_sublist _ _).trans (List.drop_sublist _ _)
    have := (hsorted.sublist hsub).imp
      (fun hab => (not_strLtB_iff _ _).mp hab)
    exact this

theorem length_filter_add_length_filter_not {α : Type} (p : α → Bool)
    (l : List α) :
    (l.filter p).length + (l.filter (fun a => !p a)).length = l.length := by
  induction l with
  | nil => rfl
  | cons a l ih =>
    by_cases h : p a = true
    · rw [List.filter_cons, List.filter_cons, if_pos h,
        if_neg (by rw [h]; exact Bool.false_ne_true)]
      simp only [List.length_cons]
      omega
    · have hf : p a = false := Bool.eq_false_iff.mpr h
      rw [List.filter_cons, List.filter_cons, if_neg h,
        if_pos (by rw [hf]; rfl)]
      simp only [List.length_cons]
      omega

/-- C9: the age purge removes from each table exactly the records whose
`created_at` is strictly below the cutoff: a record at exactly the
cutoff survives, a strictly older one is removed, a newer-or-equal one
is kept, and each returned count plus the surviving records equals the
original table size (so it equals the number actually deleted). -/
theorem C9_age_purge (st : Store) (cutoff : String) :
    (∀ r ∈ st.signatures, r.created_at < cutoff →
        r ∉ (clear_old_data_endpoint st cutoff).2.signatures) ∧
    (∀ r ∈ st.signatures, ¬ r.created_at < cutoff →
        r ∈ (clear_old_data_endpoint st cutoff).2.signatures) ∧
    (∀ r ∈ st.signatures, r.created_at = cutoff →
        r ∈ (clear_old_data_endpoint st cutoff).2.signatures) ∧
    ((clear_old_data_endpoint st cutoff).1.signatures_cleared +
        (clear_old_data_endpoint st cutoff).2.signatures.length =
      st.signatures.length) ∧
    (∀ r ∈ st.quizzes, r.created_at < cutoff →
        r ∉ (clear_old_data_endpoint st cutoff).2.quizzes) ∧
    (∀ r ∈ st.quizzes, ¬ r.created_at < cutoff →
        r ∈ (clear_old_data_endpoint st cutoff).2.quizzes) ∧
    (∀ r ∈ st.quizzes, r.created_at = cutoff →
        r ∈ (clear_old_data_endpoint st cutoff).2.quizzes) ∧
    ((clear_old_data_endpoint st cutoff).1.quizzes_cleared +
        (clear_old_data_endpoint st cutoff).2.quizzes.length =
      st.quizzes.length) := by
  simp only [clear_old_data_endpoint]
  refine ⟨?_, ?_, ?_, ?_, ?_, ?_, ?_, ?_⟩
  · intro r hr hlt hmem
    have := (List.mem_filter.mp hmem).2
    exact absurd hlt (not_lt.mpr ((not_strLtB_iff _ _).mp this))
  · intro r hr hnlt
    exact List.mem_filter.mpr ⟨hr, (not_strLtB_iff _ _).mpr (not_lt.mp hnlt)⟩
  · intro r hr heq
    refine List.mem_filter.mpr ⟨hr, (not_strLtB_iff _ _).mpr ?_⟩
    rw [heq]
  · exact length_filter_add_length_filter_not _ _
  · intro r hr hlt hmem
    have := (List.mem_filter.mp hmem).2
    exact absurd hlt (not_lt.mpr ((not_strLtB_iff _ _).mp this))
  · intro r hr hnlt
    exact List.mem_filter.mpr ⟨hr, (not_strLtB_iff _ _).mpr (not_lt.mp hnlt)⟩
  · intro r hr heq
    refine List.mem_filter.mpr ⟨hr, (not_strLtB_iff _ _).mpr ?_⟩
    rw [heq]
  · exact length_filter_add_length_filter_not _ _

/-- A later signature record for the pagination and purge witnesses. -/
def sigLateFix : SignatureRecord :=
  { sigPendingFix with
    tracking_id := "t2",
    created_at := "2024-03-01T00:00:00" }

/-- A store holding one old and one recent signature. -/
def twoSigStoreFix : Store := ⟨[sigPendingFix, sigLateFix], []⟩

/-- Witness for C8 at a concrete two-record store with limit 1,
offset 1. -/
theorem C8_witness :
    ((get_dashboard twoSigStoreFix 1 1).1.signatures).length =
        min 1 (twoSigStoreFix.signatures.length - 1) ∧
    (get_dashboard twoSigStoreFix 1 1).1.total =
      twoSigStoreFix.signatures.length ∧
    (get_dashboard twoSigStoreFix 1 1).2 = twoSigStoreFix := by
  have h := C8_dashboard_pagination twoSigStoreFix 1 1 (by decide)
  exact ⟨h.1, h.2.1, h.2.2.2⟩

/-- The purge cutoff used by the C9 witness. -/
def cutoffFix : String := "2024-02-01T00:00:00"

/-- Witness for C9: the old record is removed, the recent one survives,
and the returned count accounts for the deletion. -/
theorem C9_witness :
    sigPendingFix ∉
      (clear_old_data_endpoint twoSigStoreFix cutoffFix).2.signatures ∧
    sigLateFix ∈
      (clear_old_data_endpoint twoSigStoreFix cutoffFix).2.signatures ∧
    (clear_old_data_endpoint twoSigStoreFix cutoffFix).1.signatures_cleared +
        (clear_old_data_endpoint twoSigStoreFix cutoffFix).2.signatures.length =
      twoSigStoreFix.signatures.length := by
  have h := C9_age_purge twoSigStoreFix cutoffFix
  refine ⟨h.1 sigPendingFix (by decide) ?_, h.2.1 sigLateFix (by decide) ?_,
    h.2.2.2.1⟩
  · exact String.lt_iff_toList_lt.mpr (by decide)
  · intro hlt
    exact absurd (String.lt_iff_toList_lt.mp hlt) (by decide)
